import Mathlib

/- Shallow embedding of the techzemson/pdf-to-word orchestration core:
   the data model (src/types.ts), the analysis/chat service response
   handling (src/services/geminiService.ts), and the App component's
   pipeline, chat, history and export logic (src/App.tsx).

   src/App.tsx contains two versions of the App component.  Their size
   guard, phase transitions, history recording, chat handling and
   explicit-clear logic agree on everything modelled here; they differ
   only in render pacing state (a step list in the first version, a
   timer-driven progress percentage in the second).

   JavaScript numbers are modelled as Int (Nat for byte sizes), and the
   runtime environment (FileReader, JSON.parse outcomes, network
   outcomes, the clock and uuid source) is modelled as explicit inputs:
   a session carries a counter that stands for Date.now() and
   crypto.randomUUID(). -/

namespace PdfToWord

/- ---------- Data model (src/types.ts) ---------- -/

inductive AppState
  | IDLE
  | UPLOADING
  | PROCESSING
  | ANALYZING
  | COMPLETE
  | ERROR
deriving DecidableEq

/- The specification's abstract pipeline phase (spec section 4.2) and its
   correspondence to the code's AppState: UPLOADING covers the file
   read/encode stage (Ingesting) and PROCESSING the external service
   call (Analyzing); the enum value ANALYZING is never assigned by
   either App version. -/
inductive PipelinePhase
  | Idle
  | Ingesting
  | Analyzing
  | Completed
  | Failed
deriving DecidableEq

def phaseOf : AppState → PipelinePhase
  | .IDLE => .Idle
  | .UPLOADING => .Ingesting
  | .PROCESSING => .Analyzing
  | .ANALYZING => .Analyzing
  | .COMPLETE => .Completed
  | .ERROR => .Failed

structure DocumentStats where
  pageCount : Int
  wordCount : Int
  paragraphCount : Int
  imageCount : Int
  sentimentScore : Int
  complexityScore : Int
  readingTimeMin : Int
  language : String
  category : String
  tone : String
deriving DecidableEq

inductive EntityKind
  | Person
  | Organization
  | Location
  | Date
  | Concept
deriving DecidableEq

structure Entity where
  name : String
  kind : EntityKind
  count : Int
deriving DecidableEq

inductive Priority
  | High
  | Medium
  | Low
deriving DecidableEq

structure ActionItem where
  task : String
  priority : Priority
deriving DecidableEq

structure AnalysisResult where
  markdownContent : String
  stats : DocumentStats
  summary : String
  suggestedFilename : String
  keywords : List String
  entities : List Entity
  actionItems : List ActionItem
  keyQuotes : List String
deriving DecidableEq

structure FileData where
  id : String
  name : String
  size : Nat
  type : String
  base64 : Option String
  uploadDate : Nat
deriving DecidableEq

inductive Role
  | user
  | model
deriving DecidableEq

def roleToString : Role → String
  | .user => "user"
  | .model => "model"

structure ChatMessage where
  id : String
  role : Role
  text : String
  timestamp : Nat
deriving DecidableEq

structure HistoryItem where
  id : String
  fileName : String
  date : Nat
  summary : String
  stats : DocumentStats
deriving DecidableEq

inductive StepStatus
  | pending
  | active
  | completed
deriving DecidableEq

structure ProcessingStep where
  id : String
  label : String
  status : StepStatus
deriving DecidableEq

/- ---------- App component state (src/App.tsx) ---------- -/

def initialSteps : List ProcessingStep :=
  [⟨"upload", "Secure Encryption", .pending⟩,
   ⟨"analyze", "AI Deep Analysis", .pending⟩,
   ⟨"extract", "Extracting Entities", .pending⟩,
   ⟨"generate", "Generating Document", .pending⟩]

def setStep (steps : List ProcessingStep) (stepId : String) (st : StepStatus) :
    List ProcessingStep :=
  steps.map (fun step => if step.id == stepId then { step with status := st } else step)

/- The useState fields of the App component that carry core data, plus a
   counter modelling the Date.now()/crypto.randomUUID() source and a
   model of the localStorage record written by addToHistory. -/
structure Session where
  appState : AppState
  fileData : Option FileData
  result : Option AnalysisResult
  error : Option String
  chatHistory : List ChatMessage
  chatInput : String
  isChatLoading : Bool
  recentFiles : List HistoryItem
  steps : List ProcessingStep
  storage : Option (List HistoryItem)
  clock : Nat
deriving DecidableEq

/- A raw browser File: its metadata plus the payload the FileReader
   dataURL read will deliver. -/
structure RawFile where
  name : String
  size : Nat
  type : String
  content : String
deriving DecidableEq

/- ---------- HistoryLedger (addToHistory, src/App.tsx) ---------- -/

def mkHistoryItem (file : FileData) (analysis : AnalysisResult) (now : Nat) : HistoryItem :=
  { id := file.id
    fileName := file.name
    date := now
    summary := analysis.summary
    stats := analysis.stats }

/- `[newItem, ...recentFiles.filter(i => i.id !== file.id)].slice(0, 10)` -/
def addToHistory (recentFiles : List HistoryItem) (file : FileData)
    (analysis : AnalysisResult) (now : Nat) : List HistoryItem :=
  (mkHistoryItem file analysis now :: recentFiles.filter (fun i => i.id != file.id)).take 10

/- addToHistory as it acts on the component state: setRecentFiles(updated)
   followed by localStorage.setItem of the same list (write-through). -/
def addToHistoryState (s : Session) (file : FileData) (analysis : AnalysisResult) : Session :=
  let updated := addToHistory s.recentFiles file analysis s.clock
  { s with recentFiles := updated, storage := some updated, clock := s.clock + 1 }

def applyRecords (init : List HistoryItem)
    (ops : List (FileData × AnalysisResult × Nat)) : List HistoryItem :=
  ops.foldl (fun acc op => addToHistory acc op.1 op.2.1 op.2.2) init

/- ---------- Analysis service (src/services/geminiService.ts) ---------- -/

/- A JSON value as delivered by JSON.parse. -/
inductive JsonVal
  | null
  | bool (b : Bool)
  | num (n : Int)
  | str (s : String)
  | arr (xs : List JsonVal)
  | obj (fields : List (String × JsonVal))

/- What the environment delivers for one analysis request: response.text
   is undefined or empty (JavaScript-falsy), or a string JSON.parse
   throws on, or a string that parses to a JSON value. -/
inductive ServiceResponse
  | noText
  | unparsable
  | payload (v : JsonVal)

/- The required subfields of stats in the responseSchema sent with the
   analysis request (geminiService.ts line 82).  This descriptor is part
   of the request; it is not checked again on the response. -/
def analysisRequiredStatsFields : List String := ["wordCount", "sentimentScore", "tone"]

/- Response handling of analyzeAndConvertPDF (geminiService.ts lines
   89-92): `if (!text) throw new Error("No response from AI")` and then
   `return JSON.parse(text) as AnalysisResult` — the cast performs no
   runtime check, so a successfully parsed payload is returned as-is. -/
def analyzeAndConvertPDF : ServiceResponse → Except String JsonVal
  | .noText => .error "No response from AI"
  | .unparsable => .error "SyntaxError"
  | .payload v => .ok v

/- ---------- Validator modelled from the spec (section 4.3) ---------- -/

def jLookup (fields : List (String × JsonVal)) (key : String) : Option JsonVal :=
  (fields.find? (fun p => p.1 == key)).map (fun p => p.2)

def asInt : JsonVal → Option Int
  | .num n => some n
  | _ => none

def asString : JsonVal → Option String
  | .str s => some s
  | _ => none

def decArr (dec : JsonVal → Option α) : JsonVal → Option (List α)
  | .arr xs => xs.mapM dec
  | _ => none

/- A field that may be absent (then it defaults) but, when present, must
   decode at its declared type. -/
def optDec (o : Option JsonVal) (dec : JsonVal → Option α) (dflt : α) : Option α :=
  match o with
  | none => some dflt
  | some v => dec v

def entityKindOf : String → Option EntityKind
  | "Person" => some .Person
  | "Organization" => some .Organization
  | "Location" => some .Location
  | "Date" => some .Date
  | "Concept" => some .Concept
  | _ => none

def priorityOf : String → Option Priority
  | "High" => some .High
  | "Medium" => some .Medium
  | "Low" => some .Low
  | _ => none

def decEntity : JsonVal → Option Entity
  | .obj f => do
    let name ← (jLookup f "name").bind asString
    let kindName ← (jLookup f "type").bind asString
    let kind ← entityKindOf kindName
    let count ← (jLookup f "count").bind asInt
    guard (0 ≤ count)
    pure { name := name, kind := kind, count := count }
  | _ => none

def decActionItem : JsonVal → Option ActionItem
  | .obj f => do
    let task ← (jLookup f "task").bind asString
    let priorityName ← (jLookup f "priority").bind asString
    let priority ← priorityOf priorityName
    pure { task := task, priority := priority }
  | _ => none

/- Modelled from the spec: section 4.3 describes a ResultSchema validator
   (`validate(rawResponse) → AnalysisResult | fails with SchemaMismatch`)
   that has no counterpart anywhere in the source; this definition
   follows the spec's words so the code's actual response handling can
   be compared with it.  Required fields wordCount, sentimentScore, tone
   must be present and well-typed; sentimentScore and complexityScore
   must lie in [0,100] and are never clamped; every other field may be
   absent and defaults to an empty sequence, empty string or zero. -/
def decStats : JsonVal → Option DocumentStats
  | .obj sf => do
    let wordCount ← (jLookup sf "wordCount").bind asInt
    let sentimentScore ← (jLookup sf "sentimentScore").bind asInt
    let tone ← (jLookup sf "tone").bind asString
    guard (0 ≤ sentimentScore ∧ sentimentScore ≤ 100)
    let complexityScore ← optDec (jLookup sf "complexityScore") asInt 0
    guard (0 ≤ complexityScore ∧ complexityScore ≤ 100)
    let pageCount ← optDec (jLookup sf "pageCount") asInt 0
    let paragraphCount ← optDec (jLookup sf "paragraphCount") asInt 0
    let imageCount ← optDec (jLookup sf "imageCount") asInt 0
    let readingTimeMin ← optDec (jLookup sf "readingTimeMin") asInt 0
    let language ← optDec (jLookup sf "language") asString ""
    let category ← optDec (jLookup sf "category") asString ""
    pure { pageCount := pageCount, wordCount := wordCount
           paragraphCount := paragraphCount, imageCount := imageCount
           sentimentScore := sentimentScore, complexityScore := complexityScore
           readingTimeMin := readingTimeMin, language := language
           category := category, tone := tone }
  | _ => none

def specValidateOpt : JsonVal → Option AnalysisResult
  | .obj fields => do
    let statsVal ← jLookup fields "stats"
    let stats ← decStats statsVal
    let markdownContent ← optDec (jLookup fields "markdownContent") asString ""
    let summary ← optDec (jLookup fields "summary") asString ""
    let suggestedFilename ← optDec (jLookup fields "suggestedFilename") asString ""
    let keywords ← optDec (jLookup fields "keywords") (decArr asString) []
    let keyQuotes ← optDec (jLookup fields "keyQuotes") (decArr asString) []
    let entities ← optDec (jLookup fields "entities") (decArr decEntity) []
    let actionItems ← optDec (jLookup fields "actionItems") (decArr decActionItem) []
    pure { markdownContent := markdownContent, stats := stats
           summary := summary, suggestedFilename := suggestedFilename
           keywords := keywords, entities := entities
           actionItems := actionItems, keyQuotes := keyQuotes }
  | _ => none

def specValidate (v : JsonVal) : Except String AnalysisResult :=
  match specValidateOpt v with
  | some r => .ok r
  | none => .error "SchemaMismatch"

/- ---------- processFile (src/App.tsx) ---------- -/

def sizeLimit : Nat := 20 * 1024 * 1024

/- The outcome of the awaited analyzeAndConvertPDF call: a validated
   value of the (unchecked) AnalysisResult type, or a rejection. -/
inductive ServiceOutcome
  | ok (analysis : AnalysisResult)
  | err

structure RunOutput where
  state : Session
  trace : List AppState
  serviceCalled : Bool

/- processFile.  The size guard runs before any state change; on the
   accepted path the FileReader onload callback builds the FileData
   record, moves the app through UPLOADING and PROCESSING, awaits the
   service call and, on success, publishes the result, moves to
   COMPLETE and records history.  A rejection of the awaited call
   happens inside the async onload callback, outside the reach of the
   surrounding try/catch, so the state is left at PROCESSING with no
   error set.  `trace` lists the setAppState calls in order and
   `serviceCalled` records whether analyzeAndConvertPDF was invoked. -/
def processFile (s : Session) (file : RawFile) (outcome : ServiceOutcome) : RunOutput :=
  if file.size > 20 * 1024 * 1024 then
    { state := { s with error := some "File size exceeds 20MB limit." }
      trace := []
      serviceCalled := false }
  else
    let s1 := { s with
                appState := AppState.UPLOADING
                error := none
                result := none
                chatHistory := []
                steps := s.steps.map
                  (fun (step : ProcessingStep) => { step with status := .pending }) }
    let s2 := { s1 with steps := setStep s1.steps "upload" .active }
    let newFile : FileData :=
      { id := toString s2.clock
        name := file.name
        size := file.size
        type := file.type
        base64 := some file.content
        uploadDate := s2.clock }
    let s3 := { s2 with
                fileData := some newFile
                clock := s2.clock + 1
                steps := setStep s2.steps "upload" .completed }
    let s4 := { s3 with
                appState := AppState.PROCESSING
                steps := setStep s3.steps "analyze" .active }
    match outcome with
    | .err => { state := s4, trace := [.UPLOADING, .PROCESSING], serviceCalled := true }
    | .ok analysis =>
      let pacedSteps :=
        setStep (setStep (setStep (setStep s4.steps "analyze" .completed)
          "extract" .active) "extract" .completed) "generate" .active
      let s5 := { s4 with steps := pacedSteps }
      let s6 := { s5 with steps := setStep s5.steps "generate" .completed }
      let s7 := { s6 with result := some analysis, appState := .COMPLETE }
      let updated := addToHistory s7.recentFiles newFile analysis s7.clock
      let final := { s7 with
                     recentFiles := updated
                     storage := some updated
                     clock := s7.clock + 1 }
      { state := final
        trace := [.UPLOADING, .PROCESSING, .COMPLETE]
        serviceCalled := true }

/- The Clear button (both App versions): setResult(null) and
   setAppState(AppState.IDLE); the chat history is not touched. -/
def clearSession (s : Session) : Session :=
  { s with result := none, appState := .IDLE }

/- ---------- Chat (geminiService.ts chatWithDocument, App.tsx handleChat) -/

def fallbackReply : String := "I couldn\x27t generate a response."

structure ChatRequest where
  systemContext : String
  historyTurns : List (String × String)
  message : String

def groundingInstruction (ctx : String) : String :=
  "You are a helpful AI assistant analyzing a specific document. " ++
  "Here is the content of the document: --- " ++ ctx ++ " --- " ++
  "Answer the user\x27s questions based ONLY on the document above. " ++
  "Keep answers concise and relevant."

/- chatWithDocument: builds the grounded request (context truncated with
   slice(0, 500000), prior turns mapped to role/text pairs) and returns
   `response.text || "I couldn't generate a response."` where respText
   models response.text (none for undefined). -/
def chatWithDocument (history : List ChatMessage) (newMessage : String)
    (documentContext : String) (respText : Option String) : ChatRequest × String :=
  ({ systemContext := groundingInstruction (documentContext.take 500000)
     historyTurns := history.map (fun h => (roleToString h.role, h.text))
     message := newMessage },
   match respText with
   | none => fallbackReply
   | some t => if t.isEmpty then fallbackReply else t)

/- The outcome of one awaited chatWithDocument call: the response text
   the environment delivered, or a thrown error. -/
inductive ChatOutcome
  | reply (respText : Option String)
  | failed

def jsTrimLeftChars : List Char → List Char
  | [] => []
  | c :: cs => if c.isWhitespace then jsTrimLeftChars cs else c :: cs

/- String.prototype.trim: strip leading and trailing whitespace. -/
def jsTrim (s : String) : String :=
  String.mk (((jsTrimLeftChars s.data).reverse |> jsTrimLeftChars).reverse)

/- The guard line of handleChat: `if (!chatInput.trim() || !result)
   return` — it does not consult isChatLoading. -/
def handleChatStarts (s : Session) : Bool :=
  !((jsTrim s.chatInput).isEmpty || s.result.isNone)

/- The disabled condition of the chat send button:
   `disabled={!chatInput.trim() || isChatLoading}`.  The Enter key
   handler (`onKeyDown={(e) => e.key === 'Enter' && handleChat()}`)
   invokes handleChat without this check. -/
def sendButtonDisabled (s : Session) : Bool :=
  (jsTrim s.chatInput).isEmpty || s.isChatLoading

/- handleChat: appends the user's turn immediately, clears the input,
   sets the loading flag, then awaits chatWithDocument on the history
   and input captured before the appends; on success appends one model
   turn with the returned text, on a thrown error only logs; the
   loading flag is reset in the finally block either way. -/
def handleChat (s : Session) (outcome : ChatOutcome) : Session :=
  if (jsTrim s.chatInput).isEmpty then s
  else
    match s.result with
    | none => s
    | some r =>
      let userMsg : ChatMessage :=
        { id := toString s.clock, role := .user, text := s.chatInput, timestamp := s.clock }
      let s1 := { s with
                  chatHistory := s.chatHistory ++ [userMsg]
                  chatInput := ""
                  isChatLoading := true
                  clock := s.clock + 1 }
      match outcome with
      | .reply respText =>
        let responseText :=
          (chatWithDocument s.chatHistory s.chatInput r.markdownContent respText).2
        let aiMsg : ChatMessage :=
          { id := toString s1.clock, role := .model, text := responseText,
            timestamp := s1.clock }
        { s1 with
          chatHistory := s1.chatHistory ++ [aiMsg]
          isChatLoading := false
          clock := s1.clock + 1 }
      | .failed => { s1 with isChatLoading := false }

/- One user interaction on the chat tab: type a question into the input,
   then trigger handleChat. -/
def askWith (q : String) (o : ChatOutcome) (s : Session) : Session :=
  handleChat { s with chatInput := q } o

/- ---------- History load on mount (src/App.tsx useEffect) ---------- -/

/- What localStorage.getItem('smartpdf_history') followed by JSON.parse
   can deliver: a string JSON.parse throws on, or a parsed JSON value
   (of any shape — the code casts without checking). -/
inductive StoredValue
  | corrupt (msg : String)
  | valid (v : JsonVal)

/- The mount effect: `const saved = localStorage.getItem(...); if
   (saved) setRecentFiles(JSON.parse(saved))`.  A missing value leaves
   the initial [] in place; a JSON.parse throw escapes the effect
   uncaught; a parsed value of any shape is installed as-is. -/
def loadHistory : Option StoredValue → Except String JsonVal
  | none => .ok (.arr [])
  | some (.corrupt msg) => .error msg
  | some (.valid v) => .ok v

/- ---------- downloadContent (src/App.tsx) ---------- -/

inductive DownloadType
  | doc
  | md
  | json
  | txt
deriving DecidableEq

structure Download where
  mime : String
  data : String
  filename : String
deriving DecidableEq

def docHeader : String :=
  "<html xmlns:o=\x27urn:schemas-microsoft-com:office:office\x27 " ++
  "xmlns:w=\x27urn:schemas-microsoft-com:office:word\x27>" ++
  "<head><meta charset=\x27utf-8\x27></head><body>"

def docFooter : String := "</body></html>"

/- Replacement of the first occurrence only, as the string form of
   String.prototype.replace does. -/
def replaceFirst (s pat repl : String) : String :=
  match s.splitOn pat with
  | [] => s
  | [x] => x
  | x :: xs => x ++ repl ++ String.intercalate pat xs

/- One line under /\*\*(.*)\*\*/ with a greedy capture: the leftmost
   match spans the first ** to the last ** of the line. -/
def boldLine (line : String) : String :=
  match line.splitOn "**" with
  | p0 :: p1 :: p2 :: ps =>
    p0 ++ "<b>" ++ String.intercalate "**" ((p1 :: p2 :: ps).dropLast) ++ "</b>" ++
      ((p1 :: p2 :: ps).getLastD "")
  | _ => line

/- The per-line effect of the three multiline regex replaces applied to
   the whole content in order: ^# (.*$) to h1, then ^## (.*$) to h2
   (disjoint: an h1 line no longer starts with ##, and a ## line never
   matched ^# followed by a space), then the bold replace. -/
def mdLine (line : String) : String :=
  let l1 := if line.startsWith "# " then "<h1>" ++ line.drop 2 ++ "</h1>" else line
  let l2 := if l1.startsWith "## " then "<h2>" ++ l1.drop 3 ++ "</h2>" else l1
  boldLine l2

/- The basic MD-to-HTML transform of the doc branch; the final
   .replace(/\n/gim, '<br>') joins the transformed lines. -/
def mdToHtml (content : String) : String :=
  String.intercalate "<br>" ((content.splitOn "\n").map mdLine)

def downloadContent (content filename : String) (t : DownloadType) : Download :=
  match t with
  | .doc =>
    { mime := "application/msword"
      data := docHeader ++ mdToHtml content ++ docFooter
      filename := replaceFirst filename ".docx" "" ++ ".doc" }
  | .json =>
    { mime := "application/json", data := content
      filename := replaceFirst filename ".docx" "" ++ ".json" }
  | .md =>
    { mime := "text/plain", data := content
      filename := replaceFirst filename ".docx" "" ++ ".md" }
  | .txt =>
    { mime := "text/plain", data := content
      filename := replaceFirst filename ".docx" "" ++ ".txt" }

/- Every export button passes the result's markdownContent as the
   content argument, for all four formats (App.tsx, settings tab). -/
def exportData (r : AnalysisResult) (t : DownloadType) : String :=
  (downloadContent r.markdownContent r.suggestedFilename t).data

/- ---------- Concrete values used to evaluate the model ---------- -/

def sampleStats : DocumentStats :=
  { pageCount := 3, wordCount := 500, paragraphCount := 10, imageCount := 1
    sentimentScore := 70, complexityScore := 40, readingTimeMin := 2
    language := "en", category := "report", tone := "neutral" }

def sampleResult : AnalysisResult :=
  { markdownContent := "# Title", stats := sampleStats, summary := "A short summary."
    suggestedFilename := "report", keywords := [], entities := []
    actionItems := [], keyQuotes := [] }

def initialSession : Session :=
  { appState := .IDLE, fileData := none, result := none, error := none
    chatHistory := [], chatInput := "", isChatLoading := false
    recentFiles := [], steps := initialSteps, storage := none, clock := 0 }

def smallFile : RawFile :=
  { name := "doc.pdf", size := 1000, type := "application/pdf", content := "JVBERi0x" }

def bigFile : RawFile :=
  { name := "big.pdf", size := 25 * 1024 * 1024, type := "application/pdf"
    content := "JVBERi0x" }

def sampleFileA : FileData :=
  { id := "a-1", name := "alpha.pdf", size := 1000, type := "application/pdf"
    base64 := some "JVBERi0x", uploadDate := 3 }

def sampleFileB : FileData :=
  { id := "b-2", name := "beta.pdf", size := 2000, type := "application/pdf"
    base64 := some "JVBERi0x", uploadDate := 4 }

/- ---------- Claims ---------- -/

/-- C1: for every successful pipeline run started by processFile from the
idle state, the pipeline phase visits exactly Idle, then Ingesting, then
Analyzing, then Completed, in that order, with no phase skipped and no
phase repeated. -/
theorem c1_success_phase_sequence (s : Session) (file : RawFile) (a : AnalysisResult)
    (h0 : s.appState = AppState.IDLE) (h1 : file.size ≤ sizeLimit) :
    (s.appState :: (processFile s file (.ok a)).trace).map phaseOf =
      [PipelinePhase.Idle, PipelinePhase.Ingesting,
       PipelinePhase.Analyzing, PipelinePhase.Completed] := by
  have hlt : ¬ file.size > 20 * 1024 * 1024 := by
    simp only [sizeLimit] at h1
    omega
  simp [processFile, hlt, h0, phaseOf]

/-- Witness for C1 at a concrete idle session and a 1000-byte file. -/
theorem c1_success_phase_sequence_witness :
    initialSession.appState = AppState.IDLE ∧ smallFile.size ≤ sizeLimit ∧
    (initialSession.appState ::
        (processFile initialSession smallFile (.ok sampleResult)).trace).map phaseOf =
      [PipelinePhase.Idle, PipelinePhase.Ingesting,
       PipelinePhase.Analyzing, PipelinePhase.Completed] :=
  ⟨rfl, by decide,
   c1_success_phase_sequence initialSession smallFile sampleResult rfl (by decide)⟩

/-- C3: a submitted raw file whose byte size exceeds 20 * 1024 * 1024
bytes makes processFile set the size-exceeded error and stop: the state
changes in no other way, no request to the analysis service is issued,
and the phase is unchanged — in particular Idle remains Idle. -/
theorem c3_size_guard (s : Session) (file : RawFile) (o : ServiceOutcome)
    (h : file.size > sizeLimit) :
    (processFile s file o).state = { s with error := some "File size exceeds 20MB limit." } ∧
    (processFile s file o).serviceCalled = false ∧
    (processFile s file o).trace = [] ∧
    (processFile s file o).state.appState = s.appState ∧
    (s.appState = AppState.IDLE → (processFile s file o).state.appState = AppState.IDLE) := by
  have hgt : file.size > 20 * 1024 * 1024 := by
    simp only [sizeLimit] at h
    omega
  refine ⟨?_, ?_, ?_, ?_, ?_⟩ <;> simp [processFile, hgt]

/-- Witness for C3: a 25 MB file submitted from the idle session. -/
theorem c3_size_guard_witness :
    bigFile.size > sizeLimit ∧
    (processFile initialSession bigFile ServiceOutcome.err).state =
      { initialSession with error := some "File size exceeds 20MB limit." } ∧
    (processFile initialSession bigFile ServiceOutcome.err).serviceCalled = false ∧
    (processFile initialSession bigFile ServiceOutcome.err).state.appState =
      AppState.IDLE := by
  have h := c3_size_guard initialSession bigFile ServiceOutcome.err (by decide)
  exact ⟨by decide, h.1, h.2.1, h.2.2.2.2 rfl⟩

lemma addToHistory_length_le (l : List HistoryItem) (f : FileData)
    (a : AnalysisResult) (n : Nat) : (addToHistory l f a n).length ≤ 10 := by
  simp [addToHistory]

lemma applyRecords_length_le (ops : List (FileData × AnalysisResult × Nat))
    (init : List HistoryItem) (hinit : init.length ≤ 10) :
    (applyRecords init ops).length ≤ 10 := by
  induction ops generalizing init with
  | nil => simpa [applyRecords] using hinit
  | cons op rest ih =>
    simpa [applyRecords] using ih (addToHistory init op.1 op.2.1 op.2.2)
      (addToHistory_length_le init op.1 op.2.1 op.2.2)

/-- C5: every record on the HistoryLedger yields at most 10 entries (and
so any sequence of records from a bounded start stays bounded); a record
whose document identity is already present removes the prior entry
rather than duplicating it; the new entry is placed at the front; and
the full list is written through to storage on every mutation. -/
theorem c5_history_ledger (s : Session) (l init : List HistoryItem) (f : FileData)
    (a : AnalysisResult) (n : Nat) (ops : List (FileData × AnalysisResult × Nat))
    (hinit : init.length ≤ 10) :
    (addToHistory l f a n).length ≤ 10 ∧
    (applyRecords init ops).length ≤ 10 ∧
    (addToHistory l f a n).head? = some (mkHistoryItem f a n) ∧
    addToHistory l f a n =
      mkHistoryItem f a n :: ((l.filter (fun i => i.id != f.id)).take 9) ∧
    (∀ x ∈ (addToHistory l f a n).tail, x.id ≠ f.id) ∧
    (addToHistoryState s f a).storage = some (addToHistoryState s f a).recentFiles := by
  refine ⟨addToHistory_length_le l f a n, applyRecords_length_le ops init hinit,
    ?_, ?_, ?_, ?_⟩
  · simp [addToHistory]
  · simp [addToHistory]
  · intro x hx
    simp only [addToHistory, List.take_succ_cons, List.tail_cons] at hx
    have hmem := List.mem_of_mem_take hx
    have := List.of_mem_filter hmem
    simpa using this
  · simp [addToHistoryState]

/-- Witness for C5: two records of distinct files on the empty ledger,
with one re-record of an already-present document identity. -/
theorem c5_history_ledger_witness :
    (addToHistory [] sampleFileA sampleResult 3).length ≤ 10 ∧
    (applyRecords []
        [(sampleFileA, sampleResult, 3), (sampleFileB, sampleResult, 4),
         (sampleFileA, sampleResult, 5)]).length ≤ 10 ∧
    (addToHistory [] sampleFileA sampleResult 3).head? =
      some (mkHistoryItem sampleFileA sampleResult 3) := by
  have h := c5_history_ledger initialSession [] [] sampleFileA sampleResult 3
    [(sampleFileA, sampleResult, 3), (sampleFileB, sampleResult, 4),
     (sampleFileA, sampleResult, 5)] (by decide)
  exact ⟨h.1, h.2.1, h.2.2.1⟩

def sampleUserMsg : ChatMessage :=
  { id := "u-1", role := .user, text := "Summarize this", timestamp := 5 }

def sampleModelMsg : ChatMessage :=
  { id := "m-1", role := .model, text := "It is a report.", timestamp := 6 }

/- A session right after a completed analysis, with a conversation. -/
def chattySession : Session :=
  { initialSession with
    appState := .COMPLETE
    result := some sampleResult
    chatHistory := [sampleUserMsg, sampleModelMsg] }

/-- C6 counterexample: from a completed session with a non-empty
transcript, the explicit reset (the Clear button) clears the active
AnalysisResult but leaves the transcript untouched, so the transcript
is non-empty while no AnalysisResult is active — the claim that the
explicit reset also empties the transcript is false on this input. -/
theorem c6_clear_counterexample :
    chattySession.result = some sampleResult ∧
    chattySession.chatHistory ≠ [] ∧
    (clearSession chattySession).result = none ∧
    (clearSession chattySession).chatHistory = [sampleUserMsg, sampleModelMsg] ∧
    (clearSession chattySession).chatHistory ≠ [] := by
  refine ⟨rfl, ?_, rfl, rfl, ?_⟩ <;> simp [clearSession, chattySession, initialSession]

/-- C6 amended: beginning ingestion of a new document empties the
transcript, and no turn can be appended while no AnalysisResult is
active; but the explicit reset clears only the result and the phase,
leaving the transcript unchanged until the next ingestion. -/
theorem c6_transcript_lifecycle (s s2 : Session) (file : RawFile) (o : ServiceOutcome)
    (o2 : ChatOutcome) (h : file.size ≤ sizeLimit) (h2 : s2.result = none) :
    (processFile s file o).state.chatHistory = [] ∧
    (clearSession s).result = none ∧
    (clearSession s).chatHistory = s.chatHistory ∧
    handleChat s2 o2 = s2 := by
  have hlt : ¬ file.size > 20 * 1024 * 1024 := by
    simp only [sizeLimit] at h
    omega
  refine ⟨?_, rfl, rfl, ?_⟩
  · cases o <;> simp [processFile, hlt]
  · cases hc : (jsTrim s2.chatInput).isEmpty <;> simp [handleChat, hc, h2]

/-- Witness for C6 amended: a small file processed from the idle session
and a chat attempt on a session with no active result. -/
theorem c6_transcript_lifecycle_witness :
    (processFile initialSession smallFile (.ok sampleResult)).state.chatHistory = [] ∧
    (clearSession chattySession).result = none ∧
    (clearSession chattySession).chatHistory = chattySession.chatHistory ∧
    handleChat initialSession ChatOutcome.failed = initialSession := by
  have h := c6_transcript_lifecycle chattySession initialSession smallFile
    (.ok sampleResult) ChatOutcome.failed (by decide) rfl
  have h2 := c6_transcript_lifecycle initialSession initialSession smallFile
    (.ok sampleResult) ChatOutcome.failed (by decide) rfl
  exact ⟨h2.1, h.2.1, h.2.2.1, h.2.2.2⟩

/-- C7: each ask appends the user's turn immediately; a failed call
leaves the user's turn in the transcript and appends no model turn; a
successful call appends exactly one model turn after its user turn — so
three questions with the second call failing yield a transcript of
length 5, with the second user turn present but unanswered. -/
theorem c7_chat_sequence (s : Session) (r : AnalysisResult) (q1 q2 q3 t1 t3 : String)
    (hr : s.result = some r) (hh : s.chatHistory = [])
    (hq1 : (jsTrim q1).isEmpty = false) (hq2 : (jsTrim q2).isEmpty = false)
    (hq3 : (jsTrim q3).isEmpty = false) (ht1 : t1.isEmpty = false) (ht3 : t3.isEmpty = false) :
    (askWith q1 (ChatOutcome.reply (some t1)) s).chatHistory.map
        (fun m => (m.role, m.text)) = [(Role.user, q1), (Role.model, t1)] ∧
    (askWith q2 ChatOutcome.failed
        (askWith q1 (ChatOutcome.reply (some t1)) s)).chatHistory.map
        (fun m => (m.role, m.text)) =
      [(Role.user, q1), (Role.model, t1), (Role.user, q2)] ∧
    (askWith q3 (ChatOutcome.reply (some t3))
        (askWith q2 ChatOutcome.failed
          (askWith q1 (ChatOutcome.reply (some t1)) s))).chatHistory.map
        (fun m => (m.role, m.text)) =
      [(Role.user, q1), (Role.model, t1), (Role.user, q2),
       (Role.user, q3), (Role.model, t3)] ∧
    (askWith q3 (ChatOutcome.reply (some t3))
        (askWith q2 ChatOutcome.failed
          (askWith q1 (ChatOutcome.reply (some t1)) s))).chatHistory.length = 5 := by
  refine ⟨?_, ?_, ?_, ?_⟩ <;>
    simp [askWith, handleChat, chatWithDocument, hr, hh, hq1, hq2, hq3, ht1, ht3]

/-- Witness for C7: three concrete questions from a fresh completed
session, the second call failing. -/
theorem c7_chat_sequence_witness :
    (askWith "Key dates" (ChatOutcome.reply (some "March"))
        (askWith "List the risks" ChatOutcome.failed
          (askWith "Summarize this" (ChatOutcome.reply (some "A report."))
            { chattySession with chatHistory := [] }))).chatHistory.map
        (fun m => (m.role, m.text)) =
      [(Role.user, "Summarize this"), (Role.model, "A report."),
       (Role.user, "List the risks"), (Role.user, "Key dates"),
       (Role.model, "March")] :=
  (c7_chat_sequence { chattySession with chatHistory := [] } sampleResult
    "Summarize this" "List the risks" "Key dates" "A report." "March"
    rfl rfl (by decide) (by decide) (by decide) (by decide) (by decide)).2.2.1

/- A session with one ask in flight: the pending user turn is in the
transcript, isChatLoading is set, and the user has typed a second
question while waiting. -/
def inFlightSession : Session :=
  { initialSession with
    appState := .COMPLETE
    result := some sampleResult
    chatHistory := [sampleUserMsg]
    isChatLoading := true
    chatInput := "What are the risks?" }

/-- C8: evaluation at the failing input.  With one ask in flight
(isChatLoading set), the send button is disabled, but handleChat's own
guard does not consult the in-flight flag, so an ask issued through the
Enter key handler proceeds — it appends a second user turn and issues a
second concurrent request instead of being rejected or queued. -/
theorem c8_enter_bypasses_inflight_guard :
    inFlightSession.isChatLoading = true ∧
    sendButtonDisabled inFlightSession = true ∧
    handleChatStarts inFlightSession = true ∧
    (∀ b : Bool, handleChatStarts { inFlightSession with isChatLoading := b } = true) ∧
    (handleChat inFlightSession ChatOutcome.failed).chatHistory.length =
      inFlightSession.chatHistory.length + 1 := by
  refine ⟨rfl, by decide, by decide, fun b => by cases b <;> decide, by decide⟩

/-- C10: when the chat service response carries empty or missing text,
chatWithDocument does not fail — it returns exactly the string
"I couldn't generate a response." — and the caller appends that string
to the transcript as a model turn right after the user's turn. -/
theorem c10_fallback_reply (s : Session) (r : AnalysisResult) (t : Option String)
    (hr : s.result = some r) (hq : (jsTrim s.chatInput).isEmpty = false)
    (ht : t = none ∨ t = some "") :
    fallbackReply = "I couldn\x27t generate a response." ∧
    (chatWithDocument s.chatHistory s.chatInput r.markdownContent t).2 = fallbackReply ∧
    (handleChat s (ChatOutcome.reply t)).chatHistory.map (fun m => (m.role, m.text)) =
      s.chatHistory.map (fun m => (m.role, m.text)) ++
        [(Role.user, s.chatInput), (Role.model, fallbackReply)] := by
  have hempty : "".isEmpty = true := rfl
  rcases ht with rfl | rfl <;>
    exact ⟨rfl, by simp [chatWithDocument, hempty],
      by simp [handleChat, hq, hr, chatWithDocument, hempty]⟩

/-- Witness for C10: a missing response text on a completed session with
a typed question. -/
theorem c10_fallback_reply_witness :
    (chatWithDocument [] "Summarize this" sampleResult.markdownContent none).2 =
      fallbackReply ∧
    (handleChat { chattySession with chatHistory := [], chatInput := "Summarize this" }
        (ChatOutcome.reply none)).chatHistory.map (fun m => (m.role, m.text)) =
      [(Role.user, "Summarize this"), (Role.model, fallbackReply)] := by
  have h := c10_fallback_reply
    { chattySession with chatHistory := [], chatInput := "Summarize this" }
    sampleResult none rfl (by decide) (Or.inl rfl)
  exact ⟨h.2.1, by simpa using h.2.2⟩

/- ---------- C2: service response validation ---------- -/

def payloadMissingWordCount : JsonVal :=
  .obj [("markdownContent", .str "# Doc"),
        ("stats", .obj [("sentimentScore", .num 70), ("tone", .str "neutral")])]

def payloadOutOfRange : JsonVal :=
  .obj [("stats", .obj [("wordCount", .num 500), ("sentimentScore", .num 150),
                        ("tone", .str "neutral")])]

def outOfRangeResult : AnalysisResult :=
  { sampleResult with stats := { sampleStats with sentimentScore := 150 } }

/-- C2 counterexample: the client performs no response validation.  A
payload whose stats lack the required wordCount, and a payload whose
sentimentScore is 150, are both accepted verbatim by
analyzeAndConvertPDF (no SchemaMismatch failure), even though the
validator described by the specification rejects both; and a run whose
service call returns an out-of-range result still ends COMPLETE with
that result published. -/
theorem c2_no_validation_counterexample :
    analyzeAndConvertPDF (.payload payloadMissingWordCount) = .ok payloadMissingWordCount ∧
    analyzeAndConvertPDF (.payload payloadOutOfRange) = .ok payloadOutOfRange ∧
    specValidate payloadMissingWordCount = .error "SchemaMismatch" ∧
    specValidate payloadOutOfRange = .error "SchemaMismatch" ∧
    (processFile initialSession smallFile (.ok outOfRangeResult)).state.appState =
      AppState.COMPLETE ∧
    (processFile initialSession smallFile (.ok outOfRangeResult)).state.result =
      some outOfRangeResult := by
  refine ⟨rfl, rfl, ?_, ?_, rfl, rfl⟩ <;> rfl

/-- C2 amended: the client delegates schema enforcement to the service —
the request's responseSchema marks wordCount, sentimentScore and tone
required — and performs no validation of the response: any successfully
parsed payload is returned unchanged (fields are never checked for
presence, type or range, and out-of-range values are never clamped);
the only client-side failures are an absent or empty response text and
unparsable JSON. -/
theorem c2_response_passthrough (v : JsonVal) :
    analyzeAndConvertPDF (ServiceResponse.payload v) = .ok v ∧
    analyzeAndConvertPDF ServiceResponse.noText = .error "No response from AI" ∧
    analyzeAndConvertPDF ServiceResponse.unparsable = .error "SyntaxError" ∧
    analysisRequiredStatsFields = ["wordCount", "sentimentScore", "tone"] :=
  ⟨rfl, rfl, rfl, rfl⟩

/- ---------- C4: export round-trip ---------- -/

def resultA : AnalysisResult := { sampleResult with summary := "Summary A." }

def resultB : AnalysisResult := { sampleResult with summary := "Summary B." }

/-- C4 counterexample: the json export writes markdownContent verbatim,
so two different AnalysisResults sharing markdownContent export to the
same byte stream and no decoder can recover the original fields — the
json round-trip claimed by the specification is impossible for this
export. -/
theorem c4_json_export_counterexample :
    resultA ≠ resultB ∧
    exportData resultA DownloadType.json = exportData resultB DownloadType.json ∧
    ¬ ∃ decode : String → Option AnalysisResult,
        ∀ r : AnalysisResult, decode (exportData r DownloadType.json) = some r := by
  refine ⟨by decide, rfl, ?_⟩
  rintro ⟨decode, h⟩
  have hA := h resultA
  have hB := h resultB
  rw [show exportData resultA DownloadType.json = exportData resultB DownloadType.json
    from rfl, hB] at hA
  exact absurd (Option.some.inj hA) (by decide)

/-- C4 amended: the markdown export equals markdownContent verbatim, and
so do the json and txt exports — every export button passes
markdownContent as the content, and only the doc format transforms it —
so the json byte stream differs from the markdown one only in MIME type
and file extension and does not encode the other AnalysisResult
fields. -/
theorem c4_export_verbatim (r : AnalysisResult) :
    exportData r DownloadType.md = r.markdownContent ∧
    exportData r DownloadType.json = r.markdownContent ∧
    exportData r DownloadType.txt = r.markdownContent ∧
    (downloadContent r.markdownContent r.suggestedFilename DownloadType.json).mime =
      "application/json" ∧
    (downloadContent r.markdownContent r.suggestedFilename DownloadType.md).mime =
      "text/plain" :=
  ⟨rfl, rfl, rfl, rfl, rfl⟩

/- ---------- C9: history load on mount ---------- -/

/-- C9 counterexample: a persisted value that is not valid JSON makes the
mount effect throw an uncaught parse error instead of starting from the
empty list, and a valid-JSON value of the wrong shape is installed
as-is rather than being treated as empty — the claim that every missing
or malformed persisted value yields the empty list without raising any
error is false on these inputs. -/
theorem c9_corrupt_history_counterexample :
    loadHistory (some (.corrupt "SyntaxError: Unexpected token")) =
      .error "SyntaxError: Unexpected token" ∧
    loadHistory (some (.valid (.num 5))) = .ok (.num 5) ∧
    JsonVal.num 5 ≠ JsonVal.arr [] := by
  refine ⟨rfl, rfl, ?_⟩
  intro h
  cases h

/-- C9 amended: the ledger loads once on mount; a missing persisted value
leaves the initial empty list in place with no error, but a value
JSON.parse throws on propagates that error uncaught, and any
successfully parsed value is installed without shape validation. -/
theorem c9_history_load :
    loadHistory none = .ok (JsonVal.arr []) ∧
    (∀ msg, loadHistory (some (StoredValue.corrupt msg)) = .error msg) ∧
    (∀ v, loadHistory (some (StoredValue.valid v)) = .ok v) :=
  ⟨rfl, fun _ => rfl, fun _ => rfl⟩

end PdfToWord
